import Mathlib

/-!
Verification development for the mexc-liquidation-bot repository.

The repository is a family of near-duplicate liquidation-alert bots.  This file
gives a shallow embedding of the aggregation / detection / cooldown pipeline of
the variants the claims refer to:

* `IndexV1`  — first bot in `src/index.js` (Binance, aggressive-volume filter);
* `IndexEnh` — second ("enhanced") bot in `src/index.js` (Binance, min/max
  price-change band);
* `Part000`  — Bybit trade bot in `src/unnamed/part_000`;
* `Part002`  — Bybit liquidation bot in `src/unnamed/part_002`;
* `Part004`  — Binance bot in `src/unnamed/part_004`.

JavaScript numbers are modelled as rationals (`ℚ`); `NaN`/`Infinity` do not
exist in this model, so `isFinite` checks from the source are always true and
are noted in comments where they occur.  Timestamps (`Date.now()` milliseconds)
are modelled as integers (`ℤ`) passed explicitly as `now`.  JavaScript `Map`s
are modelled as association lists with `lookupKey` / `setKey` / `eraseKey`
below; the fallible code paths (`null` returns) are modelled with `Option`.
-/

namespace LiqBot

/-! ### Association lists standing for JavaScript `Map`s -/

/-- `Map.get(k)` (also used for `Map.has(k)` via `Option.isSome`). -/
def lookupKey {β : Type} : List (String × β) → String → Option β
  | [], _ => none
  | e :: rest, k => if e.1 = k then some e.2 else lookupKey rest k

/-- `Map.set(k, v)`: overwrite the entry for `k`, or append a fresh one. -/
def setKey {β : Type} : List (String × β) → String → β → List (String × β)
  | [], k, v => [(k, v)]
  | e :: rest, k, v => if e.1 = k then (k, v) :: rest else e :: setKey rest k v

/-- `Map.delete(k)`: remove the entry for `k`. -/
def eraseKey {β : Type} (m : List (String × β)) (k : String) : List (String × β) :=
  m.filter (fun e => decide (e.1 ≠ k))

/-- `Map.has(k)`. -/
def containsKey {β : Type} (m : List (String × β)) (k : String) : Bool :=
  (lookupKey m k).isSome

/-- Last element of `a :: l` — the source's `array[array.length - 1]` access. -/
def lastOf {α : Type} : α → List α → α
  | a, [] => a
  | _, b :: rest => lastOf b rest

theorem lookupKey_setKey_self {β : Type} (m : List (String × β)) (k : String) (v : β) :
    lookupKey (setKey m k v) k = some v := by
  induction m with
  | nil => simp [setKey, lookupKey]
  | cons e rest ih =>
    by_cases h : e.1 = k
    · simp [setKey, h, lookupKey]
    · simp [setKey, h, lookupKey, ih]

theorem lookupKey_eraseKey_self {β : Type} (m : List (String × β)) (k : String) :
    lookupKey (eraseKey m k) k = none := by
  induction m with
  | nil => simp [eraseKey, lookupKey]
  | cons e rest ih =>
    by_cases h : e.1 = k
    · simpa [eraseKey, h] using ih
    · simpa [eraseKey, h, lookupKey] using ih

theorem lookupKey_filter {β : Type} (m : List (String × β)) (k : String) (v : β)
    (p : String × β → Bool) (hm : lookupKey m k = some v) (hp : p (k, v) = true) :
    lookupKey (m.filter p) k = some v := by
  induction m with
  | nil => simp [lookupKey] at hm
  | cons e rest ih =>
    obtain ⟨k1, v1⟩ := e
    by_cases h : k1 = k
    · subst h
      simp [lookupKey] at hm
      subst hm
      simp [List.filter, hp, lookupKey]
    · simp [lookupKey, h] at hm
      cases hpe : p (k1, v1) with
      | true => simp [List.filter, hpe, lookupKey, h, ih hm]
      | false => simp [List.filter, hpe, ih hm]

/-! ### Trade / liquidation side labels

The two Binance bots in `src/index.js` label each liquidation by the side of
the liquidated position (`handleMessage`: a forced `BUY` order closes a short,
so `order.S === 'BUY' ? 'SHORT' : 'LONG'`).  The Bybit trade bot in `part_000`
labels each trade by its aggressor side (`'Buy'`/`'Sell'`). -/

/-- Side labels `'LONG'` / `'SHORT'` of the Binance variants (liquidated side). -/
inductive BSide
  | LONG
  | SHORT
deriving DecidableEq, Repr

/-- Aggressor-side labels `'Buy'`/`'buy'` vs `'Sell'`/`'sell'` of the Bybit variants. -/
inductive ASide
  | buy
  | sell
deriving DecidableEq, Repr

/-! ### `IndexV1.PriceTracker` (src/index.js, first bot, lines 60-119) -/

/-- One `{price, timestamp}` entry of the per-symbol price history. -/
structure PricePoint where
  price : ℚ
  timestamp : ℤ
deriving DecidableEq, Repr

/-- `this.prices`: symbol → price history. -/
structure PriceTrackerState where
  prices : List (String × List PricePoint)
deriving DecidableEq, Repr

/-- Result object of `PriceTracker.getPriceChange`. -/
structure PriceChange where
  changePercent : ℚ
  duration : ℚ
  oldPrice : ℚ
  newPrice : ℚ
  dataPoints : ℕ
deriving DecidableEq, Repr

namespace PriceTracker

/-- `PriceTracker.cleanup(symbol)`: drop price points older than the window;
delete the symbol's entry entirely when nothing remains. -/
def cleanup (windowMs now : ℤ) (st : PriceTrackerState) (symbol : String) :
    PriceTrackerState :=
  match lookupKey st.prices symbol with
  | none => st
  | some priceHistory =>
    let filtered := priceHistory.filter (fun p => decide (now - p.timestamp < windowMs))
    if filtered.isEmpty then { prices := eraseKey st.prices symbol }
    else { prices := setKey st.prices symbol filtered }

/-- `PriceTracker.addPrice(symbol, price)`: append a `{price, timestamp: Date.now()}`
entry (creating the history if absent), then `cleanup(symbol)`. -/
def addPrice (windowMs now : ℤ) (st : PriceTrackerState) (symbol : String) (price : ℚ) :
    PriceTrackerState :=
  let prices0 := if containsKey st.prices symbol then st.prices
                 else setKey st.prices symbol []
  let prices1 :=
    match lookupKey prices0 symbol with
    | some priceHistory =>
        setKey prices0 symbol (priceHistory ++ [{ price := price, timestamp := now }])
    | none => prices0
  cleanup windowMs now { prices := prices1 } symbol

/-- `PriceTracker.getPriceChange(symbol)`: `null` when the symbol is unknown or
its history has fewer than two points; otherwise percent change from the oldest
to the newest retained price. -/
def getPriceChange (st : PriceTrackerState) (symbol : String) : Option PriceChange :=
  match lookupKey st.prices symbol with
  | none => none
  | some priceHistory =>
    if priceHistory.length < 2 then none
    else
      match priceHistory with
      | [] => none
      | p0 :: rest =>
        let newestPoint := lastOf p0 rest
        let oldest := p0.price
        let newest := newestPoint.price
        some { changePercent := (newest - oldest) / oldest * 100,
               duration := ((newestPoint.timestamp - p0.timestamp : ℤ) : ℚ) / 1000,
               oldPrice := oldest,
               newPrice := newest,
               dataPoints := (p0 :: rest).length }

/-- `PriceTracker.reset(symbol)`. -/
def reset (st : PriceTrackerState) (symbol : String) : PriceTrackerState :=
  { prices := eraseKey st.prices symbol }

end PriceTracker

/-! ### `IndexV1.LiquidationAggregator` (src/index.js, first bot, lines 125-254) -/

/-- The liquidation object pushed by `handleMessage` into the aggregator. -/
structure AggLiq where
  side : BSide
  price : ℚ
  quantity : ℚ
  volumeUSD : ℚ
  timestamp : ℤ
deriving DecidableEq, Repr

/-- A per-symbol window `{liquidations, startTime}`. -/
structure AggWindow where
  liquidations : List AggLiq
  startTime : ℤ
deriving DecidableEq, Repr

/-- `LiquidationAggregator` state: `this.windows` plus the injected `PriceTracker`. -/
structure AggState where
  windows : List (String × AggWindow)
  tracker : PriceTrackerState
deriving DecidableEq, Repr

/-- Timestamp of the first element, defaulting when the list is empty
(`window.liquidations[0].timestamp`). -/
def firstTimestampD (l : List AggLiq) (d : ℤ) : ℤ :=
  match l with
  | [] => d
  | liq :: _ => liq.timestamp

/-- Sum of `volumeUSD` over the `'LONG'`-sided liquidations of a list
(the `longVolumeUSD += liq.volumeUSD` accumulation of `getWindowStats`). -/
def longVolume : List AggLiq → ℚ
  | [] => 0
  | liq :: rest => (if liq.side = BSide.LONG then liq.volumeUSD else 0) + longVolume rest

/-- Sum of `volumeUSD` over the non-`'LONG'`-sided liquidations of a list
(the `else shortVolumeUSD += liq.volumeUSD` branch of `getWindowStats`). -/
def shortVolume : List AggLiq → ℚ
  | [] => 0
  | liq :: rest => (if liq.side = BSide.LONG then 0 else liq.volumeUSD) + shortVolume rest

/-- Window-statistics object returned by `IndexV1`'s `getWindowStats`. -/
structure StatsV1 where
  symbol : String
  longVolumeUSD : ℚ
  shortVolumeUSD : ℚ
  totalVolumeUSD : ℚ
  dominantSide : BSide
  dominance : ℚ
  longDominance : ℚ
  shortDominance : ℚ
  count : ℕ
  durationSec : ℚ
  timestamp : ℤ
  priceChange : Option PriceChange
  aggressiveDominantVolume : ℚ
  aggressiveLongVolume : ℚ
  aggressiveShortVolume : ℚ
deriving DecidableEq, Repr

namespace Aggregator

/-- `LiquidationAggregator.cleanup(symbol)` of the first bot: evict liquidations
older than the LONGER `aggressiveWindowMs`, delete the symbol's entry when the
window becomes empty, otherwise refresh `startTime` to the oldest survivor. -/
def cleanup (aggressiveWindowMs now : ℤ) (st : AggState) (symbol : String) : AggState :=
  match lookupKey st.windows symbol with
  | none => st
  | some w =>
    let kept := w.liquidations.filter (fun liq => decide (now - liq.timestamp < aggressiveWindowMs))
    if kept.isEmpty then { st with windows := eraseKey st.windows symbol }
    else { st with windows := setKey st.windows symbol
                     { liquidations := kept, startTime := firstTimestampD kept w.startTime } }

/-- `LiquidationAggregator.addLiquidation(symbol, liquidation)`: create the
window on first use, push the liquidation, feed its price to the price tracker,
then `cleanup(symbol)`.  `trackerWindowMs` is the window the `PriceTracker` was
constructed with (`AGGREGATION_WINDOW_SEC` in the first bot). -/
def addLiquidation (aggressiveWindowMs trackerWindowMs now : ℤ) (st : AggState)
    (symbol : String) (liq : AggLiq) : AggState :=
  let windows0 := if containsKey st.windows symbol then st.windows
                  else setKey st.windows symbol { liquidations := [], startTime := now }
  let windows1 :=
    match lookupKey windows0 symbol with
    | some w => setKey windows0 symbol { w with liquidations := w.liquidations ++ [liq] }
    | none => windows0
  let tracker1 := PriceTracker.addPrice trackerWindowMs now st.tracker symbol liq.price
  cleanup aggressiveWindowMs now { windows := windows1, tracker := tracker1 } symbol

/-- `LiquidationAggregator.getWindowStats(symbol)` of the first bot: volumes and
count over the events inside the MAIN `windowMs`, aggressive volumes over the
whole retained list, dominance with the `'SHORT'` tie-break, price change from
the injected tracker.  Returns `null` for a missing/empty window and on zero
total volume. -/
def getWindowStats (windowMs now : ℤ) (st : AggState) (symbol : String) : Option StatsV1 :=
  match lookupKey st.windows symbol with
  | none => none
  | some w =>
    if w.liquidations.isEmpty then none
    else
      let mainLiqs := w.liquidations.filter (fun liq => decide (now - liq.timestamp < windowMs))
      let longVolumeUSD := longVolume mainLiqs
      let shortVolumeUSD := shortVolume mainLiqs
      let totalVolumeUSD := longVolumeUSD + shortVolumeUSD
      if totalVolumeUSD = 0 then none
      else
        let longDominance := longVolumeUSD / totalVolumeUSD * 100
        let shortDominance := shortVolumeUSD / totalVolumeUSD * 100
        let dominantSide := if longVolumeUSD > shortVolumeUSD then BSide.LONG else BSide.SHORT
        let aggressiveLongVolume := longVolume w.liquidations
        let aggressiveShortVolume := shortVolume w.liquidations
        some { symbol := symbol,
               longVolumeUSD := longVolumeUSD,
               shortVolumeUSD := shortVolumeUSD,
               totalVolumeUSD := totalVolumeUSD,
               dominantSide := dominantSide,
               dominance := max longDominance shortDominance,
               longDominance := longDominance,
               shortDominance := shortDominance,
               count := mainLiqs.length,
               durationSec := ((now - w.startTime : ℤ) : ℚ) / 1000,
               timestamp := now,
               priceChange := PriceTracker.getPriceChange st.tracker symbol,
               aggressiveDominantVolume :=
                 if (if longVolumeUSD > shortVolumeUSD then BSide.LONG else BSide.SHORT) = BSide.LONG
                 then aggressiveLongVolume else aggressiveShortVolume,
               aggressiveLongVolume := aggressiveLongVolume,
               aggressiveShortVolume := aggressiveShortVolume }

/-- `LiquidationAggregator.reset(symbol)`: drop the window and the symbol's
price history. -/
def reset (st : AggState) (symbol : String) : AggState :=
  { windows := eraseKey st.windows symbol,
    tracker := PriceTracker.reset st.tracker symbol }

end Aggregator

/-! ### `IndexV1.SignalDetector` (src/index.js, first bot, lines 260-321) -/

/-- Threshold configuration of the first bot (`CONFIG`), with its defaults
`MIN_LIQUIDATION_USD = 1_000_000`, `MIN_DOMINANCE = 65`,
`MIN_PRICE_CHANGE_PERCENT = 3`, `AGGRESSIVE_VOLUME_USD = 1_000_000`. -/
structure ConfigV1 where
  MIN_LIQUIDATION_USD : ℚ
  MIN_DOMINANCE : ℚ
  MIN_PRICE_CHANGE_PERCENT : ℚ
  AGGRESSIVE_VOLUME_USD : ℚ
deriving DecidableEq, Repr

/-- The default `CONFIG` thresholds of the first bot. -/
def cfgV1default : ConfigV1 :=
  { MIN_LIQUIDATION_USD := 1000000,
    MIN_DOMINANCE := 65,
    MIN_PRICE_CHANGE_PERCENT := 3,
    AGGRESSIVE_VOLUME_USD := 1000000 }

/-- `SignalDetector.shouldAlert(stats)` of the first bot: volume and dominance
thresholds, then (only when `stats.priceChange` is non-null) the price-change
magnitude check and the direction check (`'LONG'` dominant with negative change
rejected, `'SHORT'` dominant with positive change rejected), then the
aggressive-volume threshold. -/
def shouldAlertV1 (cfg : ConfigV1) (stats : Option StatsV1) : Bool :=
  match stats with
  | none => false
  | some s =>
    if s.totalVolumeUSD < cfg.MIN_LIQUIDATION_USD then false
    else if s.dominance < cfg.MIN_DOMINANCE then false
    else if (match s.priceChange with
             | some pc =>
               decide (|pc.changePercent| < cfg.MIN_PRICE_CHANGE_PERCENT) ||
               (decide (s.dominantSide = BSide.LONG) && decide (pc.changePercent < 0)) ||
               (decide (s.dominantSide = BSide.SHORT) && decide (pc.changePercent > 0))
             | none => false) then false
    else if s.aggressiveDominantVolume < cfg.AGGRESSIVE_VOLUME_USD then false
    else true

/-- String form of a `BSide` label, as it appears in alert signatures. -/
def bsideString : BSide → String
  | BSide.LONG => "LONG"
  | BSide.SHORT => "SHORT"

/-- `SignalDetector.getSignature(stats)`:
`symbol + ':' + dominantSide + ':' + Math.floor(totalVolumeUSD / 100000)`. -/
def getSignature (stats : StatsV1) : String :=
  stats.symbol ++ ":" ++ bsideString stats.dominantSide ++ ":" ++
    toString (Rat.floor (stats.totalVolumeUSD / 100000))

/-! ### `IndexV1.BinanceWebSocketManager.handleMessage` (src/index.js, lines 517-551)

The parsed force-order payload: `order.S === 'BUY'` marks a liquidated short
(labelled `'SHORT'`), anything else a liquidated long (labelled `'LONG'`).
`price`/`quantity` stand for the already `parseFloat`-parsed numbers; no
validation is performed before `addLiquidation`. -/

/-- The fields of `message.o` that `handleMessage` reads, numbers pre-parsed. -/
structure ForceOrder where
  s : String
  S : String
  p : ℚ
  q : ℚ
deriving DecidableEq, Repr

/-- `handleMessage` after JSON parsing succeeded and `message.o` is present:
filter by the token filter, map the order side to the liquidated-position
label, compute `volumeUSD = price * quantity`, and add the liquidation with
`timestamp: Date.now()`.  No numeric validation happens on this path. -/
def handleMessage (tokenValid : String → Bool) (aggressiveWindowMs trackerWindowMs now : ℤ)
    (st : AggState) (o : ForceOrder) : AggState :=
  if ¬ tokenValid o.s then st
  else
    let side := if o.S = "BUY" then BSide.SHORT else BSide.LONG
    let price := o.p
    let quantity := o.q
    let volumeUSD := price * quantity
    Aggregator.addLiquidation aggressiveWindowMs trackerWindowMs now st o.s
      { side := side, price := price, quantity := quantity,
        volumeUSD := volumeUSD, timestamp := now }

/-! ### `IndexEnh.SignalDetector` (src/index.js, second bot, lines 974-1021) -/

/-- Window-statistics object of the enhanced bot's `getWindowStats`
(no aggressive-volume fields). -/
structure StatsEnh where
  symbol : String
  longVolumeUSD : ℚ
  shortVolumeUSD : ℚ
  totalVolumeUSD : ℚ
  dominantSide : BSide
  dominance : ℚ
  longDominance : ℚ
  shortDominance : ℚ
  count : ℕ
  durationSec : ℚ
  timestamp : ℤ
  priceChange : Option PriceChange
deriving DecidableEq, Repr

/-- Threshold configuration of the enhanced bot, defaults
`MIN_LIQUIDATION_USD = 1_000_000`, `MIN_DOMINANCE = 65`,
`MIN_PRICE_CHANGE_PERCENT = 2`, `MAX_PRICE_CHANGE_PERCENT = 10`. -/
structure ConfigEnh where
  MIN_LIQUIDATION_USD : ℚ
  MIN_DOMINANCE : ℚ
  MIN_PRICE_CHANGE_PERCENT : ℚ
  MAX_PRICE_CHANGE_PERCENT : ℚ
deriving DecidableEq, Repr

/-- The default `CONFIG` thresholds of the enhanced bot. -/
def cfgEnhDefault : ConfigEnh :=
  { MIN_LIQUIDATION_USD := 1000000,
    MIN_DOMINANCE := 65,
    MIN_PRICE_CHANGE_PERCENT := 2,
    MAX_PRICE_CHANGE_PERCENT := 10 }

/-- `SignalDetector.shouldAlert(stats)` of the enhanced bot: volume and
dominance, then (only when `priceChange` is non-null) the min/max magnitude
band and the direction check — here `'LONG'` dominant (longs liquidated) with a
POSITIVE change is rejected and `'SHORT'` dominant with a NEGATIVE change is
rejected, the opposite orientation of the first bot's check. -/
def shouldAlertEnh (cfg : ConfigEnh) (stats : Option StatsEnh) : Bool :=
  match stats with
  | none => false
  | some s =>
    if s.totalVolumeUSD < cfg.MIN_LIQUIDATION_USD then false
    else if s.dominance < cfg.MIN_DOMINANCE then false
    else
      match s.priceChange with
      | some pc =>
        if |pc.changePercent| < cfg.MIN_PRICE_CHANGE_PERCENT then false
        else if |pc.changePercent| > cfg.MAX_PRICE_CHANGE_PERCENT then false
        else if s.dominantSide = BSide.LONG ∧ pc.changePercent > 0 then false
        else if s.dominantSide = BSide.SHORT ∧ pc.changePercent < 0 then false
        else true
      | none => true

/-! ### `Part000.TradeAggregator` (src/unnamed/part_000, lines 156-262) -/

/-- One element of `this.trades` in `part_000`'s `TradeAggregator`. -/
structure Trade where
  timestamp : ℤ
  side : ASide
  price : ℚ
  size : ℚ
  usdValue : ℚ
deriving DecidableEq, Repr

namespace TradeAggregator

/-- `TradeAggregator.cleanup(now)`: keep trades strictly newer than
`now - windowDurationSec * 1000`. -/
def cleanup (windowDurationSec now : ℤ) (trades : List Trade) : List Trade :=
  trades.filter (fun t => decide (t.timestamp > now - windowDurationSec * 1000))

/-- `TradeAggregator.addTrade(trade)`: validate (`isFinite` is always true in
the rational model, so only positivity matters), drop the trade silently on
failure, otherwise push `{timestamp: now, side, price, size, usdValue}` and
clean old trades. -/
def addTrade (windowDurationSec now : ℤ) (trades : List Trade)
    (tside : ASide) (tprice tsize : ℚ) : List Trade :=
  if tprice ≤ 0 ∨ tsize ≤ 0 then trades
  else
    cleanup windowDurationSec now
      (trades ++ [{ timestamp := now, side := tside, price := tprice, size := tsize,
                    usdValue := tprice * tsize }])

end TradeAggregator

/-- Sum of `usdValue` over the valid (`usdValue > 0`) buy-side trades: the
`buyVolumeUSD` accumulation of `getAggregation`, whose loop skips trades with
non-finite or non-positive `usdValue`. -/
def buyVolume000 : List Trade → ℚ
  | [] => 0
  | t :: rest =>
    (if 0 < t.usdValue ∧ t.side = ASide.buy then t.usdValue else 0) + buyVolume000 rest

/-- Sum of `usdValue` over the valid non-buy trades: the `sellVolumeUSD`
accumulation of `getAggregation`. -/
def sellVolume000 : List Trade → ℚ
  | [] => 0
  | t :: rest =>
    (if 0 < t.usdValue ∧ ¬ t.side = ASide.buy then t.usdValue else 0) + sellVolume000 rest

/-- Result object of `part_000`'s `getAggregation`. -/
structure Aggregation where
  symbol : String
  totalVolumeUSD : ℚ
  buyVolumeUSD : ℚ
  sellVolumeUSD : ℚ
  dominancePercent : ℚ
  dominantSide : ASide
  priceChangePercent : ℚ
  windowDurationSeconds : ℚ
  tradeCount : ℕ
  firstPrice : ℚ
  lastPrice : ℚ
deriving DecidableEq, Repr

/-- `TradeAggregator.getAggregation()`: `null` on an empty list, after cleanup
`null` when fewer than 2 trades remain, `null` on zero total volume or zero
first price (the source's `isFinite` guards are always true over `ℚ`).
`totalVolumeUSD` is accumulated over exactly the trades counted into
`buyVolumeUSD` or `sellVolumeUSD`, hence equals their sum. -/
def getAggregation (symbol : String) (windowDurationSec now : ℤ) (trades : List Trade) :
    Option Aggregation :=
  if trades.isEmpty then none
  else
    let live := TradeAggregator.cleanup windowDurationSec now trades
    if live.length < 2 then none
    else
      match live with
      | [] => none
      | firstTrade :: rest =>
        let lastTrade := lastOf firstTrade rest
        let buyVolumeUSD := buyVolume000 (firstTrade :: rest)
        let sellVolumeUSD := sellVolume000 (firstTrade :: rest)
        let totalVolumeUSD := buyVolumeUSD + sellVolumeUSD
        if totalVolumeUSD = 0 then none
        else if firstTrade.price = 0 then none
        else
          some { symbol := symbol,
                 totalVolumeUSD := totalVolumeUSD,
                 buyVolumeUSD := buyVolumeUSD,
                 sellVolumeUSD := sellVolumeUSD,
                 dominancePercent := max buyVolumeUSD sellVolumeUSD / totalVolumeUSD * 100,
                 dominantSide := if buyVolumeUSD > sellVolumeUSD then ASide.buy else ASide.sell,
                 priceChangePercent := (lastTrade.price - firstTrade.price) / firstTrade.price * 100,
                 windowDurationSeconds := ((lastTrade.timestamp - firstTrade.timestamp : ℤ) : ℚ) / 1000,
                 tradeCount := (firstTrade :: rest).length,
                 firstPrice := firstTrade.price,
                 lastPrice := lastTrade.price }

/-- Threshold configuration of `part_000` (`CONFIG`), defaults
`MIN_VOLUME_USD = 500000`, `MIN_DOMINANCE_PCT = 65`, `MIN_PRICE_CHANGE_PCT = 0.5`. -/
structure Config000 where
  MIN_VOLUME_USD : ℚ
  MIN_DOMINANCE_PCT : ℚ
  MIN_PRICE_CHANGE_PCT : ℚ
deriving DecidableEq, Repr

/-- The default `CONFIG` thresholds of `part_000`. -/
def cfg000default : Config000 :=
  { MIN_VOLUME_USD := 500000, MIN_DOMINANCE_PCT := 65, MIN_PRICE_CHANGE_PCT := 1/2 }

/-- `SignalDetector.shouldAlert(aggregation, symbolData)` of `part_000`: the
`isFinite` guards are always true over `ℚ`; then minimum trade count 5,
minimum duration 10 s, volume, dominance and price-change thresholds, and the
direction-consistency check `priceUp !== buyDominant → reject`. -/
def shouldAlert000 (cfg : Config000) (aggregation : Option Aggregation) : Bool :=
  match aggregation with
  | none => false
  | some a =>
    if a.tradeCount < 5 then false
    else if a.windowDurationSeconds < 10 then false
    else if a.totalVolumeUSD < cfg.MIN_VOLUME_USD then false
    else if a.dominancePercent < cfg.MIN_DOMINANCE_PCT then false
    else if |a.priceChangePercent| < cfg.MIN_PRICE_CHANGE_PCT then false
    else
      let priceUp := decide (a.priceChangePercent > 0)
      let buyDominant := decide (a.dominantSide = ASide.buy)
      if priceUp ≠ buyDominant then false
      else true

/-! ### Cooldown managers

Three distinct `CooldownManager`s appear in the sources the claims cite:

* the one in both `src/index.js` bots (timestamp-only per-symbol cooldown plus
  a signature dedup map; no escalation logic);
* `part_000`'s (stores `{timestamp, side, volume}` and lets an
  opposite-side or `≥ VOLUME_INCREASE_THRESHOLD ×` volume candidate through
  during cooldown);
* `part_002`'s (same escalation rule with the factor hard-coded to 1.5).

The per-symbol record looked up from `this.lastAlerts` / `this.cooldowns` is
passed as an `Option`; the side label type is a parameter since `part_000`
stores `'buy'/'sell'` and `part_002` stores `'long'/'short'`. -/

/-- The `{timestamp, side, volume}` record of `part_000` / `part_002`. -/
structure LastAlert (σ : Type) where
  timestamp : ℤ
  side : σ
  volume : ℚ
deriving DecidableEq, Repr

/-- `part_000`'s `CooldownManager.canAlert(symbol, aggregation)`, applied to
the record found for `symbol` (or `none`): within cooldown, pass on a side
flip, pass when `totalVolumeUSD / lastAlert.volume ≥ VOLUME_INCREASE_THRESHOLD`,
otherwise suppress. -/
def canAlert000 {σ : Type} [DecidableEq σ] (volumeIncreaseThreshold : ℚ) (cooldownMs : ℤ)
    (lastAlert : Option (LastAlert σ)) (now : ℤ) (dominantSide : σ) (totalVolumeUSD : ℚ) :
    Bool :=
  match lastAlert with
  | none => true
  | some la =>
    if now - la.timestamp < cooldownMs then
      if la.side ≠ dominantSide then true
      else if totalVolumeUSD / la.volume ≥ volumeIncreaseThreshold then true
      else false
    else true

/-- `part_002`'s `CooldownManager.canAlert(symbol, stats)`, applied to the
record found for `symbol`: within cooldown, suppress exactly a same-side
candidate whose `totalVolume / lastAlert.volume` is below the hard-coded 1.5. -/
def canAlert002 {σ : Type} [DecidableEq σ] (cooldownMs : ℤ)
    (lastAlert : Option (LastAlert σ)) (now : ℤ) (dominantSide : σ) (totalVolume : ℚ) :
    Bool :=
  match lastAlert with
  | none => true
  | some la =>
    if now - la.timestamp < cooldownMs then
      if dominantSide = la.side ∧ totalVolume / la.volume < 3/2 then false
      else true
    else true

/-- State of the `index.js` `CooldownManager`: `this.cooldowns` (symbol →
timestamp) and `this.recentAlerts` (signature → timestamp). -/
structure CooldownState where
  cooldowns : List (String × ℤ)
  recentAlerts : List (String × ℤ)
deriving DecidableEq, Repr

/-- `index.js` `CooldownManager.canAlert(symbol, stats, signature)`: suppress
when the symbol alerted within `cooldownMs`, then suppress when the signature
was seen within `dedupWindowMs`; the `stats` argument is never read by the
source either. -/
def canAlertIdx (cooldownMs dedupWindowMs : ℤ) (st : CooldownState) (symbol : String)
    (stats : StatsV1) (signature : String) (now : ℤ) : Bool :=
  match lookupKey st.cooldowns symbol with
  | some lastAlert =>
    if now - lastAlert < cooldownMs then false
    else
      match lookupKey st.recentAlerts signature with
      | some lastSig => if now - lastSig < dedupWindowMs then false else true
      | none => true
  | none =>
    match lookupKey st.recentAlerts signature with
    | some lastSig => if now - lastSig < dedupWindowMs then false else true
    | none => true

/-- The per-symbol cooldown gate factored out of `canAlertIdx`: pass when no
prior alert is recorded or the cooldown has elapsed. -/
def cooldownGateIdx (cooldownMs : ℤ) (lastAlertAt : Option ℤ) (now : ℤ) : Bool :=
  match lastAlertAt with
  | some lastAlert => decide (¬ (now - lastAlert < cooldownMs))
  | none => true

/-- The signature dedup gate factored out of `canAlertIdx`: pass when the
signature is unknown or was last seen at least `dedupWindowMs` ago. -/
def dedupGateIdx (dedupWindowMs : ℤ) (lastSigAt : Option ℤ) (now : ℤ) : Bool :=
  match lastSigAt with
  | some lastSig => decide (¬ (now - lastSig < dedupWindowMs))
  | none => true

/-- `index.js` `CooldownManager.cleanup()`: prune cooldown records older than
`2 × cooldownMs` and dedup records older than `2 × dedupWindowMs`. -/
def cooldownCleanupIdx (cooldownMs dedupWindowMs now : ℤ) (st : CooldownState) :
    CooldownState :=
  { cooldowns := st.cooldowns.filter (fun e => decide (¬ (now - e.2 > cooldownMs * 2))),
    recentAlerts := st.recentAlerts.filter (fun e => decide (¬ (now - e.2 > dedupWindowMs * 2))) }

/-- `index.js` `CooldownManager.recordAlert(symbol, signature)`: stamp both
maps with `Date.now()` and run `cleanup()`. -/
def recordAlertIdx (cooldownMs dedupWindowMs now : ℤ) (st : CooldownState)
    (symbol signature : String) : CooldownState :=
  cooldownCleanupIdx cooldownMs dedupWindowMs now
    { cooldowns := setKey st.cooldowns symbol now,
      recentAlerts := setKey st.recentAlerts signature now }

/-! ### `Part004.LiquidationAggregator` (src/unnamed/part_004, lines 67-164) -/

/-- A `part_004` window: `{liquidations, startTime, startPrice, lastPrice}`. -/
structure WindowP4 where
  liquidations : List AggLiq
  startTime : ℤ
  startPrice : ℚ
  lastPrice : ℚ
deriving DecidableEq, Repr

/-- `part_004` aggregator state (no separate price tracker). -/
structure AggStateP4 where
  windows : List (String × WindowP4)
deriving DecidableEq, Repr

/-- Window-statistics object of `part_004`'s `getWindowStats`. -/
structure StatsP4 where
  symbol : String
  longVolumeUSD : ℚ
  shortVolumeUSD : ℚ
  totalVolumeUSD : ℚ
  dominantSide : BSide
  dominance : ℚ
  longDominance : ℚ
  shortDominance : ℚ
  count : ℕ
  durationSec : ℚ
  timestamp : ℤ
  startPrice : ℚ
  lastPrice : ℚ
  priceChange : ℚ
deriving DecidableEq, Repr

/-- `part_004` `LiquidationAggregator.cleanup(symbol)`: evict liquidations with
`now - timestamp ≥ windowMs`, delete the entry when empty, else refresh
`startTime`. -/
def cleanupP4 (windowMs now : ℤ) (st : AggStateP4) (symbol : String) : AggStateP4 :=
  match lookupKey st.windows symbol with
  | none => st
  | some w =>
    let kept := w.liquidations.filter (fun liq => decide (now - liq.timestamp < windowMs))
    if kept.isEmpty then { windows := eraseKey st.windows symbol }
    else { windows := setKey st.windows symbol
             { w with liquidations := kept, startTime := firstTimestampD kept w.startTime } }

/-- `part_004` `addLiquidation(symbol, liquidation)`: create the window seeded
with the liquidation's price as start/last price, push, update `lastPrice`,
then `cleanup(symbol)`. -/
def addLiquidationP4 (windowMs now : ℤ) (st : AggStateP4) (symbol : String) (liq : AggLiq) :
    AggStateP4 :=
  let windows0 := if containsKey st.windows symbol then st.windows
                  else setKey st.windows symbol
                         { liquidations := [], startTime := now,
                           startPrice := liq.price, lastPrice := liq.price }
  let windows1 :=
    match lookupKey windows0 symbol with
    | some w => setKey windows0 symbol
                  { w with liquidations := w.liquidations ++ [liq], lastPrice := liq.price }
    | none => windows0
  cleanupP4 windowMs now { windows := windows1 } symbol

/-- `part_004` `getWindowStats(symbol)`: sums `volumeUSD` over the WHOLE
retained list — no freshness filter is applied at read time and `cleanup` is
not called here; a read later than the last `addLiquidation` therefore still
sees every event retained at that earlier time. -/
def getWindowStatsP4 (now : ℤ) (st : AggStateP4) (symbol : String) : Option StatsP4 :=
  match lookupKey st.windows symbol with
  | none => none
  | some w =>
    if w.liquidations.isEmpty then none
    else
      let longVolumeUSD := longVolume w.liquidations
      let shortVolumeUSD := shortVolume w.liquidations
      let totalVolumeUSD := longVolumeUSD + shortVolumeUSD
      if totalVolumeUSD = 0 then none
      else
        let longDominance := longVolumeUSD / totalVolumeUSD * 100
        let shortDominance := shortVolumeUSD / totalVolumeUSD * 100
        some { symbol := symbol,
               longVolumeUSD := longVolumeUSD,
               shortVolumeUSD := shortVolumeUSD,
               totalVolumeUSD := totalVolumeUSD,
               dominantSide := if longVolumeUSD > shortVolumeUSD then BSide.LONG else BSide.SHORT,
               dominance := max longDominance shortDominance,
               longDominance := longDominance,
               shortDominance := shortDominance,
               count := w.liquidations.length,
               durationSec := ((now - w.startTime : ℤ) : ℚ) / 1000,
               timestamp := now,
               startPrice := w.startPrice,
               lastPrice := w.lastPrice,
               priceChange := (w.lastPrice - w.startPrice) / w.startPrice * 100 }

/-! ### `IndexV1.TelegramNotifier` / `AlertEngine.sendAlert` (src/index.js, lines 442-470 and 658-674) -/

/-- Outcome of one `bot.sendMessage(chatId, message)` call: the promise either
resolves or rejects with an error message. -/
inductive SendOutcome
  | ok
  | err (msg : String)
deriving DecidableEq, Repr

/-- `TelegramNotifier.sendAlert(stats)`: send to every chat id; each per-chat
rejection is caught and logged (`.catch(err => console.error(...))`), so the
awaited `Promise.all` always resolves.  The embedding returns the list of
logged `(chatId, error message)` pairs; there is no failure path out of this
function. -/
def notifierSendAlert (outcome : String → SendOutcome) : List String → List (String × String)
  | [] => []
  | chatId :: rest =>
    (match outcome chatId with
     | SendOutcome.ok => []
     | SendOutcome.err m => [(chatId, m)]) ++ notifierSendAlert outcome rest

/-- Result of one `AlertEngine.sendAlert` call: the telegram error log and the
updated cooldown / aggregator state. -/
structure SendAlertResult where
  telegramLogs : List (String × String)
  cooldown : CooldownState
  agg : AggState
deriving Repr

/-- `AlertEngine.sendAlert(symbol, stats, signature)`: await the notifier —
which never rejects on delivery failure, because every per-chat error is
caught inside `TelegramNotifier.sendAlert` — then `recordAlert` the cooldown
and dedup entries and `reset` the aggregator window.  A failing sink therefore
does not prevent the suppression records from being written. -/
def engineSendAlert (outcome : String → SendOutcome) (chatIds : List String)
    (cooldownMs dedupWindowMs now : ℤ) (cool : CooldownState) (agg : AggState)
    (symbol signature : String) : SendAlertResult :=
  { telegramLogs := notifierSendAlert outcome chatIds,
    cooldown := recordAlertIdx cooldownMs dedupWindowMs now cool symbol signature,
    agg := Aggregator.reset agg symbol }

/-! ### Concrete scenario data used by evaluation theorems and witnesses -/

/-- A token filter that accepts every symbol. -/
def tokAll : String → Bool := fun _ => true

/-- The empty aggregator state (fresh bot). -/
def emptyAgg : AggState := { windows := [], tracker := { prices := [] } }

/-- First forced SELL order of the C1 scenario: a long liquidated at price 100. -/
def o1C1 : ForceOrder := { s := "XUSDT", S := "SELL", p := 100, q := 60000 }

/-- Second forced SELL order of the C1 scenario: a long liquidated at price 105. -/
def o2C1 : ForceOrder := { s := "XUSDT", S := "SELL", p := 105, q := 60000 }

/-- Aggregator state after ingesting the two forced SELL orders at t = 0 ms and
t = 1000 ms (first bot: aggressive window 300 s, tracker window 180 s). -/
def stC1 : AggState :=
  handleMessage tokAll 300000 180000 1000
    (handleMessage tokAll 300000 180000 0 emptyAgg o1C1) o2C1

/-- The statistics the first bot computes from `stC1` at `now = 1000`: $12.3M
of liquidated longs (`'LONG'` dominant, 100 %), price change +5 %. -/
def statsC1lit : StatsV1 :=
  { symbol := "XUSDT", longVolumeUSD := 12300000, shortVolumeUSD := 0,
    totalVolumeUSD := 12300000, dominantSide := BSide.LONG, dominance := 100,
    longDominance := 100, shortDominance := 0, count := 2, durationSec := 1,
    timestamp := 1000,
    priceChange := some { changePercent := 5, duration := 1, oldPrice := 100,
                          newPrice := 105, dataPoints := 2 },
    aggressiveDominantVolume := 12300000, aggressiveLongVolume := 12300000,
    aggressiveShortVolume := 0 }

/-- Enhanced-bot statistics analogous to the C1 scenario: longs liquidated
(`'LONG'` dominant) while the price rose 5 %. -/
def statsEnhC1 : StatsEnh :=
  { symbol := "XUSDT", longVolumeUSD := 9900000, shortVolumeUSD := 100000,
    totalVolumeUSD := 10000000, dominantSide := BSide.LONG, dominance := 99,
    longDominance := 99, shortDominance := 1, count := 10, durationSec := 60,
    timestamp := 1000,
    priceChange := some { changePercent := 5, duration := 60, oldPrice := 100,
                          newPrice := 105, dataPoints := 10 } }

/-- `part_000` aggregation analogous to the C1 scenario: sell-dominant while
the price rose 5 %. -/
def agC1 : Aggregation :=
  { symbol := "XUSDT", totalVolumeUSD := 10000000, buyVolumeUSD := 100000,
    sellVolumeUSD := 9900000, dominancePercent := 99, dominantSide := ASide.sell,
    priceChangePercent := 5, windowDurationSeconds := 60, tradeCount := 10,
    firstPrice := 100, lastPrice := 105 }

/-- A large escalated candidate for the C2 counterexample. -/
def statsBigC2 : StatsV1 :=
  { symbol := "XUSDT", longVolumeUSD := 1600000, shortVolumeUSD := 0,
    totalVolumeUSD := 1600000, dominantSide := BSide.LONG, dominance := 100,
    longDominance := 100, shortDominance := 0, count := 6, durationSec := 60,
    timestamp := 1000, priceChange := none, aggressiveDominantVolume := 1600000,
    aggressiveLongVolume := 1600000, aggressiveShortVolume := 0 }

/-- A qualifying candidate for the C3 witness. -/
def statsC3 : StatsV1 :=
  { symbol := "XUSDT", longVolumeUSD := 0, shortVolumeUSD := 123456,
    totalVolumeUSD := 123456, dominantSide := BSide.SHORT, dominance := 100,
    longDominance := 0, shortDominance := 100, count := 3, durationSec := 30,
    timestamp := 1000, priceChange := none, aggressiveDominantVolume := 123456,
    aggressiveLongVolume := 0, aggressiveShortVolume := 123456 }

/-- The coarse signature of `statsC3` (evaluates to `"XUSDT:SHORT:1"`). -/
def sigC3 : String := getSignature statsC3

/-- An exactly-tied window: one LONG and one SHORT liquidation of $100 each. -/
def wTie : AggWindow :=
  { liquidations := [{ side := BSide.LONG, price := 1, quantity := 1, volumeUSD := 100, timestamp := 0 },
                     { side := BSide.SHORT, price := 1, quantity := 1, volumeUSD := 100, timestamp := 0 }],
    startTime := 0 }

/-- Aggregator state holding the tied window `wTie` for symbol `"X"`. -/
def stTie : AggState := { windows := [("X", wTie)], tracker := { prices := [] } }

/-- The statistics `getWindowStats` computes from `stTie` at `now = 0`. -/
def statsTie : StatsV1 :=
  { symbol := "X", longVolumeUSD := 100, shortVolumeUSD := 100, totalVolumeUSD := 200,
    dominantSide := BSide.SHORT, dominance := 50, longDominance := 50, shortDominance := 50,
    count := 2, durationSec := 0, timestamp := 0, priceChange := none,
    aggressiveDominantVolume := 100, aggressiveLongVolume := 100,
    aggressiveShortVolume := 100 }

/-- Two buy trades for the non-tie `part_000` witness. -/
def tradesWit : List Trade :=
  [{ timestamp := 0, side := ASide.buy, price := 100, size := 10, usdValue := 1000 },
   { timestamp := 1000, side := ASide.buy, price := 101, size := 10, usdValue := 1010 }]

/-- The aggregation `getAggregation "Y" 240 1000 tradesWit` computes. -/
def agWit : Aggregation :=
  { symbol := "Y", totalVolumeUSD := 2010, buyVolumeUSD := 2010, sellVolumeUSD := 0,
    dominancePercent := 100, dominantSide := ASide.buy, priceChangePercent := 1,
    windowDurationSeconds := 1, tradeCount := 2, firstPrice := 100, lastPrice := 101 }

/-- Index-bot state after one single liquidation (C5 counterexample). -/
def stC5 : AggState :=
  Aggregator.addLiquidation 300000 180000 0 emptyAgg "BTCUSDT"
    { side := BSide.LONG, price := 100, quantity := 1, volumeUSD := 100, timestamp := 0 }

/-- The single liquidation of the C6 scenario, observed at t = 0 ms. -/
def liqC6 : AggLiq :=
  { side := BSide.LONG, price := 100, quantity := 1, volumeUSD := 100, timestamp := 0 }

/-- `part_004` state right after `addLiquidation` of `liqC6` at t = 0 ms. -/
def stC6 : AggStateP4 := addLiquidationP4 180000 0 { windows := [] } "XUSDT" liqC6

/-- The window `stC6` holds for `"XUSDT"`. -/
def wC6 : WindowP4 :=
  { liquidations := [liqC6], startTime := 0, startPrice := 100, lastPrice := 100 }

/-- Index-bot state after one malformed (negative-price) forced order (C8). -/
def stC8 : AggState :=
  handleMessage tokAll 300000 180000 0 emptyAgg { s := "XUSDT", S := "SELL", p := -5, q := 2 }

/-- A one-sample price history: too short for `getPriceChange` (C10 witness). -/
def histC10 : List PricePoint := [{ price := 100, timestamp := 0 }]

/-- Tracker state holding only `histC10` (C10 witness). -/
def ptStC10 : PriceTrackerState := { prices := [("XUSDT", histC10)] }

/-- First-bot statistics with a null price change that clear every remaining
threshold (C10 witness). -/
def s1C10 : StatsV1 :=
  { symbol := "XUSDT", longVolumeUSD := 1200000, shortVolumeUSD := 0,
    totalVolumeUSD := 1200000, dominantSide := BSide.LONG, dominance := 100,
    longDominance := 100, shortDominance := 0, count := 4, durationSec := 45,
    timestamp := 0, priceChange := none, aggressiveDominantVolume := 1200000,
    aggressiveLongVolume := 1200000, aggressiveShortVolume := 0 }

/-- Enhanced-bot statistics with a null price change that clear the volume and
dominance thresholds (C10 witness). -/
def sEC10 : StatsEnh :=
  { symbol := "XUSDT", longVolumeUSD := 1200000, shortVolumeUSD := 0,
    totalVolumeUSD := 1200000, dominantSide := BSide.LONG, dominance := 100,
    longDominance := 100, shortDominance := 0, count := 4, durationSec := 45,
    timestamp := 0, priceChange := none }

/-! ### Supporting lemmas -/

theorem longVolume_nonneg (l : List AggLiq) (h : ∀ liq ∈ l, 0 ≤ liq.volumeUSD) :
    0 ≤ longVolume l := by
  induction l with
  | nil => simp [longVolume]
  | cons liq rest ih =>
    have h1 := h liq (List.mem_cons_self liq rest)
    have h2 : 0 ≤ longVolume rest := ih (fun x hx => h x (List.mem_cons_of_mem liq hx))
    unfold longVolume
    by_cases hs : liq.side = BSide.LONG <;> simp [hs] <;> linarith

theorem shortVolume_nonneg (l : List AggLiq) (h : ∀ liq ∈ l, 0 ≤ liq.volumeUSD) :
    0 ≤ shortVolume l := by
  induction l with
  | nil => simp [shortVolume]
  | cons liq rest ih =>
    have h1 := h liq (List.mem_cons_self liq rest)
    have h2 : 0 ≤ shortVolume rest := ih (fun x hx => h x (List.mem_cons_of_mem liq hx))
    unfold shortVolume
    by_cases hs : liq.side = BSide.LONG <;> simp [hs] <;> linarith

theorem buyVolume000_nonneg (l : List Trade) : 0 ≤ buyVolume000 l := by
  induction l with
  | nil => simp [buyVolume000]
  | cons t rest ih =>
    unfold buyVolume000
    by_cases hc : 0 < t.usdValue ∧ t.side = ASide.buy <;> simp [hc] <;> linarith [hc]

theorem sellVolume000_nonneg (l : List Trade) : 0 ≤ sellVolume000 l := by
  induction l with
  | nil => simp [sellVolume000]
  | cons t rest ih =>
    unfold sellVolume000
    by_cases hc : 0 < t.usdValue ∧ ¬ t.side = ASide.buy <;> simp [hc] <;> linarith [hc]

/-- For `0 ≤ a < b` the dominance percentage `max a b / (a + b) * 100` lies in
`(50, 100]`. -/
theorem half_lt_dominance (a b : ℚ) (ha : 0 ≤ a) (hab : a < b) :
    50 < max a b / (a + b) * 100 ∧ max a b / (a + b) * 100 ≤ 100 := by
  have ht : 0 < a + b := by linarith
  have hmax : max a b = b := max_eq_right (le_of_lt hab)
  rw [hmax, div_mul_eq_mul_div]
  constructor
  · rw [lt_div_iff₀ ht]; linarith
  · rw [div_le_iff₀ ht]; linarith

/-- Tie and non-tie behaviour of the dominance percentage shared by every
variant's `getWindowStats` / `getAggregation`. -/
theorem dominance_pct_props (l s : ℚ) (hl : 0 ≤ l) (hs : 0 ≤ s) (ht : l + s ≠ 0) :
    (l = s → max l s / (l + s) * 100 = 50) ∧
    (l ≠ s → 50 < max l s / (l + s) * 100 ∧ max l s / (l + s) * 100 ≤ 100) := by
  constructor
  · intro h
    subst h
    have hne : l ≠ 0 := by intro h0; apply ht; rw [h0]; ring
    rw [max_self]
    field_simp
    ring
  · intro hne
    rcases lt_or_gt_of_ne hne with hlt | hgt
    · exact half_lt_dominance l s hl hlt
    · have := half_lt_dominance s l hs hgt
      rwa [add_comm s l, max_comm s l] at this

/-- The two dominance shapes used in the sources agree over a positive total. -/
theorem max_div_mul_eq (a b t : ℚ) (ht : 0 < t) :
    max (a / t * 100) (b / t * 100) = max a b / t * 100 := by
  rw [← max_mul_of_nonneg _ _ (by norm_num : (0:ℚ) ≤ 100), max_div_div_right (le_of_lt ht)]

/-- Every per-chat delivery failure leaves its log entry in the notifier's
output. -/
theorem notifierSendAlert_mem (outcome : String → SendOutcome) (chatIds : List String)
    (chatId : String) (m : String) (hmem : chatId ∈ chatIds)
    (ho : outcome chatId = SendOutcome.err m) :
    (chatId, m) ∈ notifierSendAlert outcome chatIds := by
  induction chatIds with
  | nil => cases hmem
  | cons c rest ih =>
    rcases List.mem_cons.mp hmem with h | h
    · subst h
      simp [notifierSendAlert, ho]
    · cases houtc : outcome c <;> simp [notifierSendAlert, houtc, ih h]

/-! ### Claim theorems -/

/-- Claim C1 (code bug): the first `index.js` bot alerts on a dominant-Sell
(longs-liquidated, labelled `'LONG'` by `handleMessage`) episode whose price
ROSE 5 % — two forced SELL orders of $6M and $6.3M produce `'LONG'`-dominant
statistics with `changePercent = +5`, and `shouldAlert` returns `true`,
because its direction check is oriented for aggressor-side labels while the
feed labels the liquidated side.  The enhanced bot in the same file and the
`part_000` detector reject the analogous snapshots, as the claim demands. -/
theorem shouldAlert_direction_inversion_eval :
    shouldAlertV1 cfgV1default (Aggregator.getWindowStats 180000 1000 stC1 "XUSDT") = true ∧
    shouldAlertEnh cfgEnhDefault (some statsEnhC1) = false ∧
    shouldAlert000 cfg000default (some agC1) = false := by
  have hSB : ("SELL" = "BUY") = False := eq_false (by decide)
  have hstats : Aggregator.getWindowStats 180000 1000 stC1 "XUSDT" = some statsC1lit := by
    norm_num [stC1, emptyAgg, tokAll, o1C1, o2C1, handleMessage, Aggregator.addLiquidation,
      Aggregator.cleanup, PriceTracker.addPrice, PriceTracker.cleanup,
      PriceTracker.getPriceChange, containsKey, lookupKey, setKey, eraseKey,
      Aggregator.getWindowStats, longVolume, shortVolume, firstTimestampD, lastOf,
      statsC1lit, List.filter, hSB]
  refine ⟨?_, ?_, ?_⟩
  · rw [hstats]
    norm_num [shouldAlertV1, cfgV1default, statsC1lit]
    decide
  · norm_num [shouldAlertEnh, cfgEnhDefault, statsEnhC1]
  · norm_num [shouldAlert000, cfg000default, agC1]
    decide

/-- Claim C2 counterexample: the `index.js` `CooldownManager` suppresses EVERY
candidate within the cooldown window — here a $1.6M candidate 1 s after a
recorded alert is rejected even though the claimed escalation rule (volume
ratio ≥ 1.5, or any side flip; the record stores no side or volume at all)
would let it through. -/
theorem canAlertIdx_no_escalation_cex :
    canAlertIdx 1200000 60000 { cooldowns := [("XUSDT", 0)], recentAlerts := [] }
      "XUSDT" statsBigC2 "XUSDT:LONG:16" 1000 = false := by decide

/-- Claim C2 amended: in the Bybit variants (`part_000`, `part_002`) a
within-cooldown candidate passes exactly when its dominant side differs from
the last alert's or its volume reaches the escalation factor times the last
alert's volume (`VOLUME_INCREASE_THRESHOLD` in `part_000`, hard-coded 1.5 in
`part_002`); the `index.js` `CooldownManager` has no escalation path. -/
theorem canAlert_escalation_variants {σ : Type} [DecidableEq σ] (thr : ℚ) (cooldownMs : ℤ)
    (la : LastAlert σ) (now : ℤ) (side : σ) (vol : ℚ)
    (hin : now - la.timestamp < cooldownMs) (hpos : 0 < la.volume) :
    (canAlert000 thr cooldownMs (some la) now side vol = true ↔
      (la.side ≠ side ∨ thr * la.volume ≤ vol)) ∧
    (canAlert002 cooldownMs (some la) now side vol = true ↔
      (la.side ≠ side ∨ (3/2 : ℚ) * la.volume ≤ vol)) := by
  constructor
  · simp only [canAlert000, if_pos hin]
    by_cases hside : la.side = side
    · simp [hside, ge_iff_le, le_div_iff₀ hpos]
    · simp [hside]
  · simp only [canAlert002, if_pos hin]
    by_cases hside : side = la.side
    · subst hside
      simp [le_div_iff₀ hpos, not_lt]
    · have hside2 : la.side ≠ side := fun h => hside h.symm
      simp [hside, hside2]

/-- Claim C2 amended, witness: an opposite-volume escalation (side unchanged,
$1.6M against a recorded $1M, ratio 1.6 ≥ 1.5) passes both Bybit cooldown
gates 1 s into the cooldown. -/
theorem canAlert_escalation_variants_wit :
    canAlert000 (3/2 : ℚ) 1200000
      (some { timestamp := 0, side := ASide.sell, volume := 1000000 })
      1000 ASide.sell 1600000 = true ∧
    canAlert002 1200000
      (some { timestamp := 0, side := ASide.sell, volume := 1000000 })
      1000 ASide.sell 1600000 = true := by
  have h := canAlert_escalation_variants (σ := ASide) (3/2) 1200000
    { timestamp := 0, side := ASide.sell, volume := 1000000 } 1000 ASide.sell 1600000
    (by norm_num) (by norm_num)
  exact ⟨h.1.mpr (Or.inr (by norm_num)), h.2.mpr (Or.inr (by norm_num))⟩

/-- Claim C3: whenever the candidate's coarse signature was recorded within
`dedupWindowMs` of `now`, `canAlert` rejects it regardless of the cooldown
map's contents; and in general `canAlert` is exactly the conjunction of the
per-symbol cooldown gate and the signature dedup gate, so both must pass. -/
theorem canAlertIdx_dedup_gate (cooldownMs dedupWindowMs : ℤ) (st : CooldownState)
    (symbol : String) (stats : StatsV1) (now t : ℤ)
    (hsig : lookupKey st.recentAlerts (getSignature stats) = some t)
    (ht : now - t < dedupWindowMs) :
    canAlertIdx cooldownMs dedupWindowMs st symbol stats (getSignature stats) now = false ∧
    ∀ (st2 : CooldownState) (sig2 : String) (n2 : ℤ),
      canAlertIdx cooldownMs dedupWindowMs st2 symbol stats sig2 n2 =
        (cooldownGateIdx cooldownMs (lookupKey st2.cooldowns symbol) n2 &&
         dedupGateIdx dedupWindowMs (lookupKey st2.recentAlerts sig2) n2) := by
  constructor
  · unfold canAlertIdx
    cases hc : lookupKey st.cooldowns symbol with
    | some lastAlert =>
      by_cases h1 : now - lastAlert < cooldownMs
      · simp [h1]
      · simp [h1, hsig, ht]
    | none => simp [hsig, ht]
  · intro st2 sig2 n2
    unfold canAlertIdx cooldownGateIdx dedupGateIdx
    cases lookupKey st2.cooldowns symbol with
    | some lastAlert =>
      by_cases h1 : n2 - lastAlert < cooldownMs
      · simp [h1]
      · cases lookupKey st2.recentAlerts sig2 with
        | some lastSig => by_cases h2 : n2 - lastSig < dedupWindowMs <;> simp [h1, h2]
        | none => simp [h1]
    | none =>
      cases lookupKey st2.recentAlerts sig2 with
      | some lastSig => by_cases h2 : n2 - lastSig < dedupWindowMs <;> simp [h2]
      | none => simp

/-- Claim C3 witness: with `statsC3`'s signature recorded at t = 0 and an empty
cooldown map (so the cooldown gate passes), `canAlert` at t = 1000 ms still
rejects. -/
theorem canAlertIdx_dedup_gate_wit :
    canAlertIdx 1200000 60000 { cooldowns := [], recentAlerts := [(sigC3, 0)] }
      "XUSDT" statsC3 sigC3 1000 = false :=
  (canAlertIdx_dedup_gate 1200000 60000
      { cooldowns := [], recentAlerts := [(sigC3, 0)] } "XUSDT" statsC3 1000 0
      (by simp [sigC3, lookupKey]) (by norm_num)).1

/-- Claim C4: in the first `index.js` bot's `getWindowStats` (over a window of
nonnegative event volumes) an exact volume tie yields dominance exactly 50 and
the fixed `'SHORT'` tie-break side, and any other computed snapshot has
dominance in (50, 100]; `part_000`'s `getAggregation` behaves the same with its
`'sell'` tie-break. -/
theorem windowStats_tie_dominance (windowMs now : ℤ) (st : AggState) (sym : String)
    (w : AggWindow) (stats : StatsV1)
    (hw : lookupKey st.windows sym = some w)
    (hnn : ∀ liq ∈ w.liquidations, 0 ≤ liq.volumeUSD)
    (h : Aggregator.getWindowStats windowMs now st sym = some stats) :
    ((stats.longVolumeUSD = stats.shortVolumeUSD →
        stats.dominance = 50 ∧ stats.dominantSide = BSide.SHORT) ∧
     (stats.longVolumeUSD ≠ stats.shortVolumeUSD →
        50 < stats.dominance ∧ stats.dominance ≤ 100)) ∧
    (∀ (sym2 : String) (wsec n2 : ℤ) (trades : List Trade) (ag : Aggregation),
       getAggregation sym2 wsec n2 trades = some ag →
       ((ag.buyVolumeUSD = ag.sellVolumeUSD →
           ag.dominancePercent = 50 ∧ ag.dominantSide = ASide.sell) ∧
        (ag.buyVolumeUSD ≠ ag.sellVolumeUSD →
           50 < ag.dominancePercent ∧ ag.dominancePercent ≤ 100))) := by
  constructor
  · unfold Aggregator.getWindowStats at h
    rw [hw] at h
    dsimp only at h
    split at h
    · exact absurd h (by simp)
    · split at h
      · exact absurd h (by simp)
      · next ht0 =>
        set mainLiqs := w.liquidations.filter
          (fun liq => decide (now - liq.timestamp < windowMs)) with hmain
        have hl : 0 ≤ longVolume mainLiqs :=
          longVolume_nonneg mainLiqs
            (fun liq hm => hnn liq (List.mem_of_mem_filter hm))
        have hs : 0 ≤ shortVolume mainLiqs :=
          shortVolume_nonneg mainLiqs
            (fun liq hm => hnn liq (List.mem_of_mem_filter hm))
        have hst := (Option.some.inj h).symm
        subst hst
        have ht : (0:ℚ) < longVolume mainLiqs + shortVolume mainLiqs :=
          lt_of_le_of_ne (by linarith) (Ne.symm ht0)
        have hprops := dominance_pct_props (longVolume mainLiqs) (shortVolume mainLiqs) hl hs ht0
        have hdom : max (longVolume mainLiqs / (longVolume mainLiqs + shortVolume mainLiqs) * 100)
              (shortVolume mainLiqs / (longVolume mainLiqs + shortVolume mainLiqs) * 100) =
            max (longVolume mainLiqs) (shortVolume mainLiqs) /
              (longVolume mainLiqs + shortVolume mainLiqs) * 100 :=
          max_div_mul_eq _ _ _ ht
        constructor
        · intro htie
          simp only at htie
          refine ⟨?_, ?_⟩
          · simp only [hdom]
            exact hprops.1 htie
          · simp only [htie, gt_iff_lt, lt_irrefl, if_false]
        · intro hne
          simp only at hne
          simp only [hdom]
          exact hprops.2 hne
  · intro sym2 wsec n2 trades ag hag
    unfold getAggregation at hag
    split at hag
    · exact absurd hag (by simp)
    · dsimp only at hag
      split at hag
      · exact absurd hag (by simp)
      · split at hag
        · exact absurd hag (by simp)
        · next firstTrade rest heq =>
          have hb : 0 ≤ buyVolume000 (firstTrade :: rest) := buyVolume000_nonneg _
          have hsv : 0 ≤ sellVolume000 (firstTrade :: rest) := sellVolume000_nonneg _
          split at hag
          · exact absurd hag (by simp)
          · next ht0 =>
            split at hag
            · exact absurd hag (by simp)
            · have hst := (Option.some.inj hag).symm
              subst hst
              have hprops := dominance_pct_props (buyVolume000 (firstTrade :: rest))
                (sellVolume000 (firstTrade :: rest)) hb hsv ht0
              constructor
              · intro htie
                simp only at htie
                refine ⟨hprops.1 htie, ?_⟩
                simp only [htie, gt_iff_lt, lt_irrefl, if_false]
              · intro hne
                simp only at hne
                exact hprops.2 hne

/-- Claim C4 witness: a concrete tied window ($100 LONG vs $100 SHORT) yields
dominance 50 and side `'SHORT'`, and a concrete all-buy `part_000` aggregation
has dominance in (50, 100]. -/
theorem windowStats_tie_dominance_wit :
    (statsTie.dominance = 50 ∧ statsTie.dominantSide = BSide.SHORT) ∧
    (50 < agWit.dominancePercent ∧ agWit.dominancePercent ≤ 100) := by
  have hSL : (BSide.SHORT = BSide.LONG) = False := eq_false (by decide)
  have hLS : (BSide.LONG = BSide.SHORT) = False := eq_false (by decide)
  have hsb : (ASide.sell = ASide.buy) = False := eq_false (by decide)
  have hbs : (ASide.buy = ASide.sell) = False := eq_false (by decide)
  have hstats : Aggregator.getWindowStats 180000 0 stTie "X" = some statsTie := by
    norm_num [stTie, wTie, Aggregator.getWindowStats, lookupKey,
      PriceTracker.getPriceChange, longVolume, shortVolume, firstTimestampD,
      statsTie, List.filter, hSL, hLS]
  have h := windowStats_tie_dominance 180000 0 stTie "X" wTie statsTie
    (by simp [stTie, lookupKey]) (by decide) hstats
  have hag : getAggregation "Y" 240 1000 tradesWit = some agWit := by
    norm_num [tradesWit, getAggregation, TradeAggregator.cleanup, buyVolume000,
      sellVolume000, lastOf, agWit, List.filter, hsb, hbs]
  have h2 := h.2 "Y" 240 1000 tradesWit agWit hag
  exact ⟨h.1.1 (by norm_num [statsTie]), h2.2 (by norm_num [agWit])⟩

/-- Claim C5 counterexample: the first `index.js` bot computes statistics from
a SINGLE-event window — `getWindowStats` has no minimum event count, so one
$100 liquidation yields `some` stats with `count = 1` rather than the claimed
"no signal". -/
theorem getWindowStats_single_event_cex :
    (Aggregator.getWindowStats 180000 0 stC5 "BTCUSDT").map StatsV1.count = some 1 := by
  have hSL : (BSide.SHORT = BSide.LONG) = False := eq_false (by decide)
  have hLS : (BSide.LONG = BSide.SHORT) = False := eq_false (by decide)
  norm_num [stC5, emptyAgg, Aggregator.addLiquidation, Aggregator.cleanup,
    PriceTracker.addPrice, PriceTracker.cleanup, PriceTracker.getPriceChange,
    containsKey, lookupKey, setKey, eraseKey, Aggregator.getWindowStats,
    longVolume, shortVolume, firstTimestampD, List.filter, hSL, hLS]

/-- Claim C5 amended: `part_000`'s `getAggregation` returns "no signal"
(`none`, never an exception — the embedding is a total function) whenever the
post-eviction window has fewer than 2 trades or zero accumulated volume; the
`index.js` `getWindowStats` only guards against empty windows and zero total
volume and computes statistics from a single-event window. -/
theorem getAggregation_no_signal (sym : String) (windowSec now : ℤ) (trades : List Trade)
    (h : (TradeAggregator.cleanup windowSec now trades).length < 2 ∨
         buyVolume000 (TradeAggregator.cleanup windowSec now trades) +
           sellVolume000 (TradeAggregator.cleanup windowSec now trades) = 0) :
    getAggregation sym windowSec now trades = none := by
  unfold getAggregation
  split
  · rfl
  · dsimp only
    split
    · rfl
    · next hlen =>
      split
      · rfl
      · next firstTrade rest heq =>
        rcases h with h | h
        · exact absurd h hlen
        · rw [heq] at h
          rw [if_pos h]

/-- Claim C5 amended, witness: a single live trade yields `none`. -/
theorem getAggregation_no_signal_wit :
    getAggregation "X" 240 0
      [{ timestamp := 0, side := ASide.buy, price := 100, size := 1, usdValue := 100 }] =
      none :=
  getAggregation_no_signal "X" 240 0 _ (Or.inl (by decide))

/-- Claim C6 counterexample: in `part_004` a read WITHOUT an intervening
`addLiquidation` still sees expired events — the window was last cleaned when
the event arrived at t = 0, and `getWindowStats` at `now = 180000` (age exactly
`windowMs`, so `now - observedAt < windowMs` fails) still reports its $100. -/
theorem getWindowStatsP4_stale_read_cex :
    (getWindowStatsP4 180000 stC6 "XUSDT").map StatsP4.totalVolumeUSD = some 100 ∧
    ¬ ((180000 : ℤ) - liqC6.timestamp < 180000) := by
  constructor
  · have hSL : (BSide.SHORT = BSide.LONG) = False := eq_false (by decide)
    have hLS : (BSide.LONG = BSide.SHORT) = False := eq_false (by decide)
    norm_num [stC6, liqC6, addLiquidationP4, cleanupP4, containsKey, lookupKey,
      setKey, eraseKey, getWindowStatsP4, longVolume, shortVolume, firstTimestampD,
      List.filter, hSL, hLS]
  · decide

/-- Claim C6 amended: eviction runs on each `addLiquidation` (not before every
read): `part_004`'s `cleanup` retains exactly the events with
`now - observedAt < windowMs` at ITS `now` and deletes the symbol's entry when
none survive; a read at the same instant therefore reflects only live events,
but a later read may include expired ones (see the counterexample). -/
theorem cleanupP4_retention (windowMs now : ℤ) (st : AggStateP4) (sym : String) :
    (∀ w', lookupKey (cleanupP4 windowMs now st sym).windows sym = some w' →
       ∀ liq ∈ w'.liquidations, now - liq.timestamp < windowMs) ∧
    (∀ w, lookupKey st.windows sym = some w →
       w.liquidations.filter (fun liq => decide (now - liq.timestamp < windowMs)) = [] →
       lookupKey (cleanupP4 windowMs now st sym).windows sym = none) := by
  unfold cleanupP4
  cases hw : lookupKey st.windows sym with
  | none =>
    dsimp only
    refine ⟨?_, ?_⟩
    · intro w' hw' liq hliq
      rw [hw] at hw'
      exact Option.noConfusion hw'
    · intro w hw2 hfil
      exact Option.noConfusion hw2
  | some w0 =>
    dsimp only
    by_cases hk : (w0.liquidations.filter
        (fun liq => decide (now - liq.timestamp < windowMs))).isEmpty = true
    · rw [if_pos hk]
      refine ⟨?_, ?_⟩
      · intro w' hw' liq hliq
        rw [lookupKey_eraseKey_self] at hw'
        exact Option.noConfusion hw'
      · intro w hw2 hfil
        exact lookupKey_eraseKey_self _ _
    · rw [if_neg hk]
      refine ⟨?_, ?_⟩
      · intro w' hw' liq hliq
        rw [lookupKey_setKey_self] at hw'
        have hw'' := (Option.some.inj hw').symm
        subst hw''
        dsimp only at hliq
        have hm := List.mem_filter.mp hliq
        exact of_decide_eq_true hm.2
      · intro w hw2 hfil
        have hww := Option.some.inj hw2
        subst hww
        exact absurd (by rw [hfil]; rfl) hk

/-- Claim C6 amended, witness: cleaning `stC6` at t = 200 s (the lone event is
20 s past the 180 s window) deletes the `"XUSDT"` entry entirely. -/
theorem cleanupP4_retention_wit :
    lookupKey (cleanupP4 180000 200000 stC6 "XUSDT").windows "XUSDT" = none := by
  have hlk : lookupKey stC6.windows "XUSDT" = some wC6 := by
    norm_num [stC6, wC6, liqC6, addLiquidationP4, cleanupP4, containsKey, lookupKey,
      setKey, eraseKey, firstTimestampD, List.filter]
  exact (cleanupP4_retention 180000 200000 stC6 "XUSDT").2 wC6 hlk (by decide)

/-- Claim C7: for any pattern of per-chat delivery outcomes — in particular any
failing chat — `AlertEngine.sendAlert` still records the cooldown and dedup
entries at `now` (they survive the immediate GC pass when the suppression
windows are nonnegative), and the failure is logged by the notifier. -/
theorem dispatch_failure_still_records (outcome : String → SendOutcome) (chatIds : List String)
    (cooldownMs dedupWindowMs now : ℤ) (cool : CooldownState) (agg : AggState)
    (symbol signature : String) (hcm : 0 ≤ cooldownMs) (hdm : 0 ≤ dedupWindowMs)
    (chatId m : String) (hmem : chatId ∈ chatIds) (ho : outcome chatId = SendOutcome.err m) :
    lookupKey (engineSendAlert outcome chatIds cooldownMs dedupWindowMs now cool agg
        symbol signature).cooldown.cooldowns symbol = some now ∧
    lookupKey (engineSendAlert outcome chatIds cooldownMs dedupWindowMs now cool agg
        symbol signature).cooldown.recentAlerts signature = some now ∧
    (chatId, m) ∈ (engineSendAlert outcome chatIds cooldownMs dedupWindowMs now cool agg
        symbol signature).telegramLogs := by
  refine ⟨?_, ?_, notifierSendAlert_mem outcome chatIds chatId m hmem ho⟩
  · unfold engineSendAlert recordAlertIdx cooldownCleanupIdx
    dsimp only
    apply lookupKey_filter
    · exact lookupKey_setKey_self _ _ _
    · simp only [decide_eq_true_eq]
      omega
  · unfold engineSendAlert recordAlertIdx cooldownCleanupIdx
    dsimp only
    apply lookupKey_filter
    · exact lookupKey_setKey_self _ _ _
    · simp only [decide_eq_true_eq]
      omega

/-- The always-failing notification sink used by the C7 witness. -/
def outcomeW : String → SendOutcome := fun _ => SendOutcome.err "boom"

/-- Claim C7 witness: with a sink that rejects every send, the records are
still written and the failure is logged. -/
theorem dispatch_failure_still_records_wit :
    lookupKey (engineSendAlert outcomeW ["42"] 1200000 60000 5
        { cooldowns := [], recentAlerts := [] } emptyAgg "XUSDT" "sig").cooldown.cooldowns
      "XUSDT" = some 5 ∧
    lookupKey (engineSendAlert outcomeW ["42"] 1200000 60000 5
        { cooldowns := [], recentAlerts := [] } emptyAgg "XUSDT" "sig").cooldown.recentAlerts
      "sig" = some 5 ∧
    ("42", "boom") ∈ (engineSendAlert outcomeW ["42"] 1200000 60000 5
        { cooldowns := [], recentAlerts := [] } emptyAgg "XUSDT" "sig").telegramLogs :=
  dispatch_failure_still_records outcomeW ["42"] 1200000 60000 5
    { cooldowns := [], recentAlerts := [] } emptyAgg "XUSDT" "sig"
    (by norm_num) (by norm_num) "42" "boom" (by simp) rfl

/-- Claim C8 counterexample: the `index.js` `handleMessage` performs no
validation — a forced order with the non-positive parsed price −5 enters the
window and contributes its negative `volumeUSD = −10` to the aggregates. -/
theorem handleMessage_no_validation_cex :
    (lookupKey stC8.windows "XUSDT").map (fun w => longVolume w.liquidations) = some (-10) ∧
    (lookupKey stC8.windows "XUSDT").map (fun w => w.liquidations.length) = some 1 := by
  have hSB : ("SELL" = "BUY") = False := eq_false (by decide)
  constructor <;>
    norm_num [stC8, emptyAgg, tokAll, handleMessage, Aggregator.addLiquidation,
      Aggregator.cleanup, PriceTracker.addPrice, PriceTracker.cleanup, containsKey,
      lookupKey, setKey, eraseKey, longVolume, firstTimestampD, List.filter, hSB]

/-- Claim C8 amended: `part_000`'s `addTrade` silently drops a trade whose
parsed price or size is non-positive (the non-finite cases of the source's
check do not arise over `ℚ`): the stored trade list is unchanged, so such an
event never contributes to any aggregate; `index.js` has no such validation
(see the counterexample). -/
theorem addTrade_drops_invalid (windowDurationSec now : ℤ) (trades : List Trade)
    (tside : ASide) (tprice tsize : ℚ) (h : tprice ≤ 0 ∨ tsize ≤ 0) :
    TradeAggregator.addTrade windowDurationSec now trades tside tprice tsize = trades := by
  unfold TradeAggregator.addTrade
  rw [if_pos h]

/-- Claim C8 amended, witness: a negative-price trade leaves the list as it
was. -/
theorem addTrade_drops_invalid_wit :
    TradeAggregator.addTrade 240 0
      [{ timestamp := 0, side := ASide.buy, price := 100, size := 1, usdValue := 100 }]
      ASide.sell (-5) 2 =
      [{ timestamp := 0, side := ASide.buy, price := 100, size := 1, usdValue := 100 }] :=
  addTrade_drops_invalid 240 0 _ ASide.sell (-5) 2 (Or.inl (by norm_num))

/-- Claim C9: `reset(symbol)` followed immediately by `addLiquidation` leaves
the symbol's window holding exactly the one new event (with `startTime` its
timestamp after the eviction pass), all prior events discarded — for any prior
state and any fresh event. -/
theorem reset_then_add_single_event (aggressiveWindowMs trackerWindowMs now : ℤ)
    (st : AggState) (symbol : String) (liq : AggLiq)
    (h : now - liq.timestamp < aggressiveWindowMs) :
    lookupKey (Aggregator.addLiquidation aggressiveWindowMs trackerWindowMs now
        (Aggregator.reset st symbol) symbol liq).windows symbol =
      some { liquidations := [liq], startTime := liq.timestamp } := by
  unfold Aggregator.addLiquidation Aggregator.reset PriceTracker.reset Aggregator.cleanup
  simp only [containsKey, lookupKey_eraseKey_self, Option.isSome_none,
    Bool.false_eq_true, if_false, lookupKey_setKey_self, List.nil_append,
    List.filter_cons, List.filter_nil, h, decide_True, if_true, List.isEmpty_cons,
    List.isEmpty_nil, firstTimestampD]

/-- Claim C9 witness: resetting `stTie` and adding one fresh event yields the
singleton window. -/
theorem reset_then_add_single_event_wit :
    lookupKey (Aggregator.addLiquidation 300000 180000 500
        (Aggregator.reset stTie "X") "X"
        { side := BSide.LONG, price := 100, quantity := 1, volumeUSD := 100,
          timestamp := 500 }).windows "X" =
      some { liquidations := [{ side := BSide.LONG, price := 100, quantity := 1,
                                volumeUSD := 100, timestamp := 500 }],
             startTime := 500 } :=
  reset_then_add_single_event 300000 180000 500 stTie "X" _ (by norm_num)

/-- Claim C10: with fewer than two retained price samples `getPriceChange` is
`null`, and on a snapshot whose `priceChange` is `null` both canonical Binance
`shouldAlert`s skip the price-magnitude and direction checks entirely: the
first bot alerts exactly on volume ∧ dominance ∧ aggressive volume, the
enhanced bot exactly on volume ∧ dominance. -/
theorem priceChange_null_skips_price_checks (st : PriceTrackerState) (symbol : String)
    (hist : List PricePoint) (cfg1 : ConfigV1) (cfgE : ConfigEnh) (s1 : StatsV1)
    (sE : StatsEnh)
    (hh : lookupKey st.prices symbol = some hist) (hlen : hist.length < 2)
    (h1 : s1.priceChange = none) (hE : sE.priceChange = none) :
    PriceTracker.getPriceChange st symbol = none ∧
    (shouldAlertV1 cfg1 (some s1) = true ↔
      (cfg1.MIN_LIQUIDATION_USD ≤ s1.totalVolumeUSD ∧ cfg1.MIN_DOMINANCE ≤ s1.dominance ∧
       cfg1.AGGRESSIVE_VOLUME_USD ≤ s1.aggressiveDominantVolume)) ∧
    (shouldAlertEnh cfgE (some sE) = true ↔
      (cfgE.MIN_LIQUIDATION_USD ≤ sE.totalVolumeUSD ∧
       cfgE.MIN_DOMINANCE ≤ sE.dominance)) := by
  refine ⟨?_, ?_, ?_⟩
  · unfold PriceTracker.getPriceChange
    rw [hh]
    dsimp only
    rw [if_pos hlen]
  · simp only [shouldAlertV1, h1]
    constructor
    · intro hres
      by_cases hA : s1.totalVolumeUSD < cfg1.MIN_LIQUIDATION_USD
      · simp [hA] at hres
      · by_cases hB : s1.dominance < cfg1.MIN_DOMINANCE
        · simp [hA, hB] at hres
        · by_cases hC : s1.aggressiveDominantVolume < cfg1.AGGRESSIVE_VOLUME_USD
          · simp [hA, hB, hC] at hres
          · exact ⟨not_lt.mp hA, not_lt.mp hB, not_lt.mp hC⟩
    · rintro ⟨hA, hB, hC⟩
      simp [not_lt.mpr hA, not_lt.mpr hB, not_lt.mpr hC]
  · simp only [shouldAlertEnh, hE]
    constructor
    · intro hres
      by_cases hA : sE.totalVolumeUSD < cfgE.MIN_LIQUIDATION_USD
      · simp [hA] at hres
      · by_cases hB : sE.dominance < cfgE.MIN_DOMINANCE
        · simp [hA, hB] at hres
        · exact ⟨not_lt.mp hA, not_lt.mp hB⟩
    · rintro ⟨hA, hB⟩
      simp [not_lt.mpr hA, not_lt.mpr hB]

/-- Claim C10 witness: a one-sample history gives `getPriceChange = null`, and
concrete null-price-change snapshots clearing the remaining thresholds make
both detectors fire. -/
theorem priceChange_null_skips_price_checks_wit :
    PriceTracker.getPriceChange ptStC10 "XUSDT" = none ∧
    shouldAlertV1 cfgV1default (some s1C10) = true ∧
    shouldAlertEnh cfgEnhDefault (some sEC10) = true := by
  have h := priceChange_null_skips_price_checks ptStC10 "XUSDT" histC10
    cfgV1default cfgEnhDefault s1C10 sEC10 (by simp [ptStC10, lookupKey])
    (by decide) rfl rfl
  exact ⟨h.1, h.2.1.mpr (by norm_num [cfgV1default, s1C10]),
         h.2.2.mpr (by norm_num [cfgEnhDefault, sEC10])⟩

end LiqBot
